import Mathlib

/-!
Shallow embedding of the membership-reconciliation core of the
`terraform-provider-slack` provider.

The Go resources (`ConversationResource`, `UsergroupResource`), the
data sources (`UserDataSource`, `UsergroupDataSource`) and the helper
`contains` are translated into pure Lean functions.  Remote Slack API
responses are supplied by an explicit `Remote` oracle; every operation
returns its result together with the ordered list of API calls it
issued, so that claims about which remote calls happen (and in which
circumstances) become statements about the returned trace.
-/

set_option maxRecDepth 10000

/-- `types.String.ValueString()`: the zero value `""` when null. -/
def Option.valueString : Option String → String
  | none => ""
  | some s => s

/-- `types.Bool.ValueBool()`: the zero value `false` when null. -/
def Option.valueBool : Option Bool → Bool
  | none => false
  | some b => b

/-- `types.Set.Elements()` / `ElementsAs` into a slice: the nil slice when
null. -/
def Option.elems : Option (List String) → List String
  | none => []
  | some l => l

namespace SlackProvider

/-- Model of `types.String` from the plugin framework: `none` is the null
value, `some s` a known value.  (`Unknown` never reaches the reconciliation
code paths modelled here.) -/
abbrev TString := Option String

/-- Model of `types.Bool`. -/
abbrev TBool := Option Bool

/-- Model of `types.Set` of strings: `none` is the null set, `some l` holds
the element list. -/
abbrev TSet := Option (List String)

/-- `slack.Channel`, restricted to the fields the resource touches. -/
structure Channel where
  id : String
  name : String
  creator : String
  created : Int
  isPrivate : Bool
  isGeneral : Bool
  isShared : Bool
  isExtShared : Bool
  isOrgShared : Bool
  isArchived : Bool
  topic : String
  purpose : String
deriving Repr, DecidableEq

/-- `slack.UserGroup`, restricted to the fields the resource touches
(`channels` stands for `Prefs.Channels`). -/
structure UserGroup where
  id : String
  name : String
  handle : String
  description : String
  channels : List String
  users : List String
deriving Repr, DecidableEq

/-- `slack.User`, restricted to the fields the user data source touches. -/
structure SlackUser where
  id : String
  name : String
  email : String
deriving Repr, DecidableEq

/-- One remote Slack API call, recorded with its arguments. -/
inductive ApiCall where
  | createConversation (name : String) (isPrivate : Bool)
  | setTopic (channelID topic : String)
  | setPurpose (channelID purpose : String)
  | inviteUser (channelID userID : String)
  | kickUser (channelID userID : String)
  | renameConversation (channelID newName : String)
  | archiveConversation (channelID : String)
  | unarchiveConversation (channelID : String)
  | getConversationInfo (channelID : String)
  | getUsersInConversation (channelID : String)
  | createUserGroup (group : UserGroup)
  | updateUserGroup (id name : String) (handle description : Option String)
      (channels : Option (List String))
  | updateUserGroupMembers (id members : String)
  | getUserGroups
  | disableUserGroup (id : String)
  | getUsers
deriving Repr, DecidableEq

/-- Read-only calls (no remote mutation). -/
def isRead : ApiCall → Bool
  | .getConversationInfo _ => true
  | .getUsersInConversation _ => true
  | .getUserGroups => true
  | .getUsers => true
  | _ => false

/-- The users for whom an invite call appears in a trace, in call order. -/
def invitedUsers (tr : List ApiCall) : List String :=
  tr.filterMap fun c =>
    match c with
    | .inviteUser _ u => some u
    | _ => none

/-- The users for whom a kick call appears in a trace, in call order. -/
def kickedUsers (tr : List ApiCall) : List String :=
  tr.filterMap fun c =>
    match c with
    | .kickUser _ u => some u
    | _ => none

/-- The usergroup member-replacement calls in a trace (id, joined member
string), in call order. -/
def memberReplaceCalls (tr : List ApiCall) : List (String × String) :=
  tr.filterMap fun c =>
    match c with
    | .updateUserGroupMembers id members => some (id, members)
    | _ => none

/-- Responses of the remote Slack API, one field per client method used by
the provider.  `Except.error e` models a Go `error` whose `Error()` text is
`e`. -/
structure Remote where
  createConversation : String → Bool → Except String Channel
  setTopic : String → String → Except String Unit
  setPurpose : String → String → Except String Unit
  inviteUser : String → String → Except String Unit
  kickUser : String → String → Except String Unit
  renameConversation : String → String → Except String Unit
  archiveConversation : String → Except String Unit
  unarchiveConversation : String → Except String Unit
  getConversationInfo : String → Except String Channel
  getUsersInConversation : String → Except String (List String)
  createUserGroup : UserGroup → Except String UserGroup
  updateUserGroup : String → Except String Unit
  updateUserGroupMembers : String → String → Except String Unit
  getUserGroups : Except String (List UserGroup)
  disableUserGroup : String → Except String Unit
  getUsers : Except String (List SlackUser)

/-- `errChannelNotFound` from the source. -/
def errChannelNotFound : String := "channel_not_found"

/-- `errAlreadyArchived` from the source. -/
def errAlreadyArchived : String := "already_archived"

/-- `ConversationResourceModel` from the source. -/
structure ConversationResourceModel where
  id : TString
  name : TString
  topic : TString
  purpose : TString
  permanentMembers : TSet
  created : Option Int
  creator : TString
  isPrivate : TBool
  isArchived : TBool
  isShared : TBool
  isExtShared : TBool
  isOrgShared : TBool
  isGeneral : TBool
  actionOnDestroy : TString
  actionOnUpdatePermanentMembers : TString
  adoptExistingChannel : TBool
deriving Repr, DecidableEq

/-- `UsergroupResourceModel` from the source. -/
structure UsergroupResourceModel where
  id : TString
  name : TString
  handle : TString
  description : TString
  channels : TSet
  users : TSet
deriving Repr, DecidableEq

/-- `contains` from the source: linear scan for a string in a slice. -/
def contains (s : List String) (e : String) : Bool :=
  match s with
  | [] => false
  | x :: rest => if x == e then true else contains rest e

/-- The membership diff the `Update` loops compute: additions are the
desired members not contained in the observed list, removals the observed
members not contained in the desired list. -/
def differ (newMembers oldMembers : List String) : List String × List String :=
  (newMembers.filter (fun u => !contains oldMembers u),
   oldMembers.filter (fun u => !contains newMembers u))

/-- Sequencing of two traced steps: the second runs only when the first
succeeded; the trace keeps the calls issued before the failure. -/
def pseq (a b : Except String Unit × List ApiCall) :
    Except String Unit × List ApiCall :=
  match a with
  | (.error e, tr) => (.error e, tr)
  | (.ok _, tr) => (b.1, tr ++ b.2)

/-- The invite loop of `ConversationResource.Create`: invite every member
in order, aborting on the first error. -/
def inviteLoop (remote : Remote) (chID : String) :
    List String → Except String Unit × List ApiCall
  | [] => (.ok (), [])
  | u :: rest =>
    match remote.inviteUser chID u with
    | .error e => (.error ("Unable to invite user " ++ u ++ " to conversation: " ++ e),
        [.inviteUser chID u])
    | .ok _ =>
      match inviteLoop remote chID rest with
      | (res, tr) => (res, .inviteUser chID u :: tr)

/-- The invite loop of `ConversationResource.Update`: invite every member
of the new list that is not contained in the old list. -/
def inviteAbsentLoop (remote : Remote) (chID : String) (old : List String) :
    List String → Except String Unit × List ApiCall
  | [] => (.ok (), [])
  | u :: rest =>
    if contains old u then inviteAbsentLoop remote chID old rest
    else
      match remote.inviteUser chID u with
      | .error e => (.error ("Unable to invite user " ++ u ++ " to conversation: " ++ e),
          [.inviteUser chID u])
      | .ok _ =>
        match inviteAbsentLoop remote chID old rest with
        | (res, tr) => (res, .inviteUser chID u :: tr)

/-- The kick loop of `ConversationResource.Update`: kick every member of
the old list that is not contained in the new list. -/
def kickAbsentLoop (remote : Remote) (chID : String) (new : List String) :
    List String → Except String Unit × List ApiCall
  | [] => (.ok (), [])
  | u :: rest =>
    if contains new u then kickAbsentLoop remote chID new rest
    else
      match remote.kickUser chID u with
      | .error e => (.error ("Unable to kick user " ++ u ++ " from conversation: " ++ e),
          [.kickUser chID u])
      | .ok _ =>
        match kickAbsentLoop remote chID new rest with
        | (res, tr) => (res, .kickUser chID u :: tr)

/-- The conditional topic block of `ConversationResource.Create` (runs when
the planned topic is set and non-empty). -/
def createTopicStep (remote : Remote) (chID : String) (plan : ConversationResourceModel) :
    Except String Unit × List ApiCall :=
  if plan.topic ≠ none ∧ plan.topic.valueString ≠ "" then
    match remote.setTopic chID plan.topic.valueString with
    | .error e => (.error ("Unable to set conversation topic: " ++ e),
        [.setTopic chID plan.topic.valueString])
    | .ok _ => (.ok (), [.setTopic chID plan.topic.valueString])
  else (.ok (), [])

/-- The conditional purpose block of `ConversationResource.Create`. -/
def createPurposeStep (remote : Remote) (chID : String) (plan : ConversationResourceModel) :
    Except String Unit × List ApiCall :=
  if plan.purpose ≠ none ∧ plan.purpose.valueString ≠ "" then
    match remote.setPurpose chID plan.purpose.valueString with
    | .error e => (.error ("Unable to set conversation purpose: " ++ e),
        [.setPurpose chID plan.purpose.valueString])
    | .ok _ => (.ok (), [.setPurpose chID plan.purpose.valueString])
  else (.ok (), [])

/-- The permanent-members block of `ConversationResource.Create`: when the
set is non-null and non-empty, invite every element in order. -/
def createInviteStep (remote : Remote) (chID : String) (plan : ConversationResourceModel) :
    Except String Unit × List ApiCall :=
  if plan.permanentMembers ≠ none ∧ plan.permanentMembers.elems.length > 0 then
    inviteLoop remote chID plan.permanentMembers.elems
  else (.ok (), [])

/-- `ConversationResource.Create`: create the channel, copy the response
fields into the model, conditionally set topic and purpose, invite every
element of `permanent_members`, and write the locally assembled model back.
No read of the channel is issued. -/
def conversationCreate (remote : Remote) (plan : ConversationResourceModel) :
    Except String ConversationResourceModel × List ApiCall :=
  let name := plan.name.valueString
  let isPrivate := plan.isPrivate.valueBool
  match remote.createConversation name isPrivate with
  | .error e => (.error ("Unable to create conversation: " ++ e),
      [.createConversation name isPrivate])
  | .ok ch =>
    let data1 := { plan with
      id := some ch.id, name := some ch.name, creator := some ch.creator,
      created := some ch.created, isPrivate := some ch.isPrivate,
      isGeneral := some ch.isGeneral, isShared := some ch.isShared,
      isExtShared := some ch.isExtShared, isOrgShared := some ch.isOrgShared,
      isArchived := some ch.isArchived }
    match pseq (createTopicStep remote ch.id plan)
        (pseq (createPurposeStep remote ch.id plan) (createInviteStep remote ch.id plan)) with
    | (.error e, tr) => (.error e, .createConversation name isPrivate :: tr)
    | (.ok _, tr) => (.ok data1, .createConversation name isPrivate :: tr)

/-- The rename block of `ConversationResource.Update`. -/
def renameStep (remote : Remote) (id : String) (plan st : ConversationResourceModel) :
    Except String Unit × List ApiCall :=
  if plan.name ≠ st.name then
    match remote.renameConversation id plan.name.valueString with
    | .error e => (.error ("Unable to rename conversation: " ++ e),
        [.renameConversation id plan.name.valueString])
    | .ok _ => (.ok (), [.renameConversation id plan.name.valueString])
  else (.ok (), [])

/-- The topic block of `ConversationResource.Update`. -/
def topicStep (remote : Remote) (id : String) (plan st : ConversationResourceModel) :
    Except String Unit × List ApiCall :=
  if plan.topic ≠ none ∧ plan.topic ≠ st.topic then
    match remote.setTopic id plan.topic.valueString with
    | .error e => (.error ("Unable to set conversation topic: " ++ e),
        [.setTopic id plan.topic.valueString])
    | .ok _ => (.ok (), [.setTopic id plan.topic.valueString])
  else (.ok (), [])

/-- The purpose block of `ConversationResource.Update`. -/
def purposeStep (remote : Remote) (id : String) (plan st : ConversationResourceModel) :
    Except String Unit × List ApiCall :=
  if plan.purpose ≠ none ∧ plan.purpose ≠ st.purpose then
    match remote.setPurpose id plan.purpose.valueString with
    | .error e => (.error ("Unable to set conversation purpose: " ++ e),
        [.setPurpose id plan.purpose.valueString])
    | .ok _ => (.ok (), [.setPurpose id plan.purpose.valueString])
  else (.ok (), [])

/-- The archive/unarchive block of `ConversationResource.Update`; the
errors `already_archived` and `not_archived` are swallowed. -/
def archiveStep (remote : Remote) (id : String) (plan st : ConversationResourceModel) :
    Except String Unit × List ApiCall :=
  if plan.isArchived ≠ st.isArchived then
    if plan.isArchived.valueBool then
      match remote.archiveConversation id with
      | .error e =>
        if e = errAlreadyArchived then (.ok (), [.archiveConversation id])
        else (.error ("Unable to archive conversation: " ++ e), [.archiveConversation id])
      | .ok _ => (.ok (), [.archiveConversation id])
    else
      match remote.unarchiveConversation id with
      | .error e =>
        if e = "not_archived" then (.ok (), [.unarchiveConversation id])
        else (.error ("Unable to unarchive conversation: " ++ e), [.unarchiveConversation id])
      | .ok _ => (.ok (), [.unarchiveConversation id])
  else (.ok (), [])

/-- The permanent-members block of `ConversationResource.Update`: runs only
when the planned set differs from the prior set; invites the planned members
missing from the prior list, then, under the `kick` policy, kicks the prior
members missing from the planned list. -/
def membersStep (remote : Remote) (id : String) (plan st : ConversationResourceModel) :
    Except String Unit × List ApiCall :=
  if plan.permanentMembers ≠ st.permanentMembers then
    let newMembers := plan.permanentMembers.elems
    let oldMembers := st.permanentMembers.elems
    pseq (inviteAbsentLoop remote id oldMembers newMembers)
      (if plan.actionOnUpdatePermanentMembers.valueString = "kick" then
        kickAbsentLoop remote id newMembers oldMembers
      else (.ok (), []))
  else (.ok (), [])

/-- `ConversationResource.Update`: field-by-field mutation blocks, then a
terminal `GetConversationInfo` read (plus a member-list read when
`permanent_members` is set) whose response overwrites the computed fields. -/
def conversationUpdate (remote : Remote) (plan st : ConversationResourceModel) :
    Except String ConversationResourceModel × List ApiCall :=
  let id := plan.id.valueString
  match pseq (renameStep remote id plan st) (pseq (topicStep remote id plan st)
      (pseq (purposeStep remote id plan st) (pseq (archiveStep remote id plan st)
        (membersStep remote id plan st)))) with
  | (.error e, tr) => (.error e, tr)
  | (.ok _, tr) =>
    match remote.getConversationInfo id with
    | .error e => (.error ("Unable to read conversation after update: " ++ e),
        tr ++ [.getConversationInfo id])
    | .ok ch =>
      let data1 := { plan with
        name := some ch.name, topic := some ch.topic, purpose := some ch.purpose,
        isArchived := some ch.isArchived, isShared := some ch.isShared,
        isExtShared := some ch.isExtShared, isOrgShared := some ch.isOrgShared }
      if plan.permanentMembers ≠ none then
        match remote.getUsersInConversation id with
        | .error e => (.error ("Unable to get users in conversation: " ++ e),
            tr ++ [.getConversationInfo id, .getUsersInConversation id])
        | .ok mems =>
          (.ok { data1 with
              permanentMembers := some (mems.filter (fun m => m ≠ ch.creator)) },
            tr ++ [.getConversationInfo id, .getUsersInConversation id])
      else (.ok data1, tr ++ [.getConversationInfo id])

/-- `ConversationResource.Delete`: under the `archive` destroy policy issue
one archive call, swallowing `already_archived` and `channel_not_found`;
under any other policy issue nothing. -/
def conversationDelete (remote : Remote) (st : ConversationResourceModel) :
    Except String Unit × List ApiCall :=
  let action := st.actionOnDestroy.valueString
  if action = "archive" then
    match remote.archiveConversation st.id.valueString with
    | .error e =>
      if e ≠ errAlreadyArchived ∧ e ≠ errChannelNotFound then
        (.error ("Unable to archive conversation: " ++ e),
          [.archiveConversation st.id.valueString])
      else (.ok (), [.archiveConversation st.id.valueString])
    | .ok _ => (.ok (), [.archiveConversation st.id.valueString])
  else (.ok (), [])

/-- The state-population step shared by the usergroup Create/Read/Update
terminal reads: copy the matched remote group into the model. -/
def populateUG (d : UsergroupResourceModel) (ug : UserGroup) : UsergroupResourceModel :=
  { d with
    name := some ug.name, handle := some ug.handle,
    description := some ug.description, channels := some ug.channels,
    users := some ug.users }

/-- The member block of `UsergroupResource.Create`: a member-replacement
call is issued only when `users` is set and non-empty. -/
def ugCreateMemberStep (remote : Remote) (createdID : String) (plan : UsergroupResourceModel) :
    Except String Unit × List ApiCall :=
  if plan.users ≠ none ∧ plan.users.elems.length > 0 then
    match remote.updateUserGroupMembers createdID
        (String.intercalate "," plan.users.elems) with
    | .error e => (.error ("Unable to update usergroup members: " ++ e),
        [.updateUserGroupMembers createdID (String.intercalate "," plan.users.elems)])
    | .ok _ => (.ok (),
        [.updateUserGroupMembers createdID (String.intercalate "," plan.users.elems)])
  else (.ok (), [])

/-- `UsergroupResource.Create`: create the group, issue a member-replacement
call only when `users` is set and non-empty, then re-read the group list and
match by ID to populate computed fields. -/
def usergroupCreate (remote : Remote) (plan : UsergroupResourceModel) :
    Except String UsergroupResourceModel × List ApiCall :=
  let channels := plan.channels.elems
  let req : UserGroup :=
    { id := "", name := plan.name.valueString,
      handle := plan.handle.valueString, description := plan.description.valueString,
      channels := channels, users := [] }
  match remote.createUserGroup req with
  | .error e => (.error ("Unable to create usergroup: " ++ e), [.createUserGroup req])
  | .ok created =>
    let data1 := { plan with id := some created.id }
    match ugCreateMemberStep remote created.id plan with
    | (.error e, tr2) => (.error e, .createUserGroup req :: tr2)
    | (.ok _, tr2) =>
      match remote.getUserGroups with
      | .error e => (.error ("Unable to read usergroup after create: " ++ e),
          .createUserGroup req :: tr2 ++ [.getUserGroups])
      | .ok groups =>
        match groups.find? (fun ug => ug.id == data1.id.valueString) with
        | some ug => (.ok (populateUG data1 ug), .createUserGroup req :: tr2 ++ [.getUserGroups])
        | none => (.error "Usergroup not found after create",
            .createUserGroup req :: tr2 ++ [.getUserGroups])

/-- Outcome of a resource `Read`: a refreshed model, a silent removal from
tracked state, or an error diagnostic. -/
inductive ReadOutcome (α : Type) where
  | ok (val : α)
  | removed
  | failed (e : String)
deriving Repr, DecidableEq

/-- `UsergroupResource.Read`: list-then-match by ID; absence silently
removes the resource from state instead of raising an error. -/
def usergroupRead (remote : Remote) (st : UsergroupResourceModel) :
    ReadOutcome UsergroupResourceModel × List ApiCall :=
  match remote.getUserGroups with
  | .error e => (.failed ("Unable to read usergroups: " ++ e), [.getUserGroups])
  | .ok groups =>
    match groups.find? (fun ug => ug.id == st.id.valueString) with
    | some ug => (.ok (populateUG st ug), [.getUserGroups])
    | none => (.removed, [.getUserGroups])

/-- The field block of `UsergroupResource.Update`: the group-update call is
issued only when one of name/handle/description/channels changed; handle and
description are included in the call only when set and non-empty, channels
only when the set is non-null. -/
def ugUpdateFieldsStep (remote : Remote) (plan st : UsergroupResourceModel) :
    Except String Unit × List ApiCall :=
  if plan.name ≠ st.name ∨ plan.handle ≠ st.handle ∨
      plan.description ≠ st.description ∨ plan.channels ≠ st.channels then
    let channels := plan.channels.elems
    let call := ApiCall.updateUserGroup plan.id.valueString plan.name.valueString
      (if plan.handle ≠ none ∧ plan.handle.valueString ≠ "" then
        some plan.handle.valueString else none)
      (if plan.description ≠ none ∧ plan.description.valueString ≠ "" then
        some plan.description.valueString else none)
      (if plan.channels ≠ none then some channels else none)
    match remote.updateUserGroup plan.id.valueString with
    | .error e => (.error ("Unable to update usergroup: " ++ e), [call])
    | .ok _ => (.ok (), [call])
  else (.ok (), [])

/-- The member block of `UsergroupResource.Update`: the member-replacement
call is issued only when `users` changed and is set (an explicitly empty set
that changed produces a replace-with-empty call). -/
def ugUpdateMemberStep (remote : Remote) (plan st : UsergroupResourceModel) :
    Except String Unit × List ApiCall :=
  if plan.users ≠ st.users ∧ plan.users ≠ none then
    match remote.updateUserGroupMembers plan.id.valueString
        (String.intercalate "," plan.users.elems) with
    | .error e => (.error ("Unable to update usergroup members: " ++ e),
        [.updateUserGroupMembers plan.id.valueString
          (String.intercalate "," plan.users.elems)])
    | .ok _ => (.ok (),
        [.updateUserGroupMembers plan.id.valueString
          (String.intercalate "," plan.users.elems)])
  else (.ok (), [])

/-- `UsergroupResource.Update`: issue the group-update call only when
name/handle/description/channels changed, issue the member-replacement call
only when `users` changed and is set, then re-read the group list and match
by ID. -/
def usergroupUpdate (remote : Remote) (plan st : UsergroupResourceModel) :
    Except String UsergroupResourceModel × List ApiCall :=
  match ugUpdateFieldsStep remote plan st with
  | (.error e, tr) => (.error e, tr)
  | (.ok _, tr) =>
    match ugUpdateMemberStep remote plan st with
    | (.error e, tr2) => (.error e, tr ++ tr2)
    | (.ok _, tr2) =>
      match remote.getUserGroups with
      | .error e => (.error ("Unable to read usergroup after update: " ++ e),
          tr ++ tr2 ++ [.getUserGroups])
      | .ok groups =>
        match groups.find? (fun ug => ug.id == plan.id.valueString) with
        | some ug => (.ok (populateUG plan ug), tr ++ tr2 ++ [.getUserGroups])
        | none => (.error "Usergroup not found after update",
            tr ++ tr2 ++ [.getUserGroups])

/-- `UsergroupResource.Delete`: one disable call; every error, the remote
"already disabled" response included, is propagated as a failure. -/
def usergroupDelete (remote : Remote) (st : UsergroupResourceModel) :
    Except String Unit × List ApiCall :=
  match remote.disableUserGroup st.id.valueString with
  | .error e => (.error ("Unable to disable usergroup: " ++ e),
      [.disableUserGroup st.id.valueString])
  | .ok _ => (.ok (), [.disableUserGroup st.id.valueString])

/-- `UserDataSource.searchByName`: enumerate the workspace users, keep the
exact-name matches, and fail on zero matches or on more than one match. -/
def searchByName (remote : Remote) (name : String) : Except String SlackUser :=
  match remote.getUsers with
  | .error e => .error ("couldn\x27t get workspace users: " ++ e)
  | .ok users =>
    let matching := users.filter (fun u => u.name == name)
    if h1 : matching.length < 1 then .error ("no results found for name " ++ name)
    else if matching.length > 1 then .error ("multiple results found for name " ++ name)
    else .ok (matching.get ⟨0, by omega⟩)

/-- `UsergroupDataSourceModel` from the source. -/
structure UsergroupDataSourceModel where
  id : TString
  usergroupID : TString
  name : TString
  handle : TString
  description : TString
  users : TSet
  channels : TSet
deriving Repr, DecidableEq

/-- `UsergroupDataSource.Read`: exactly one of `id`/`name` must be given;
list-then-match; a missing group is a user-facing "Not Found" error and no
state is produced. -/
def usergroupDataSourceRead (remote : Remote) (config : UsergroupDataSourceModel) :
    Except String UsergroupDataSourceModel × List ApiCall :=
  let hasID := config.id.isSome
  let hasName := config.name.isSome
  if !hasID && !hasName then
    (.error "Either id or name must be specified", [])
  else if hasID && hasName then
    (.error "Only one of id or name can be specified, not both", [])
  else
    match remote.getUserGroups with
    | .error e => (.error ("Unable to read usergroups: " ++ e), [.getUserGroups])
    | .ok groups =>
      match groups.find? (fun ug =>
          (hasID && (ug.id == config.id.valueString)) ||
          (hasName && (ug.name == config.name.valueString))) with
      | some ug =>
        (.ok { config with
            id := some ug.id, usergroupID := some ug.id,
            name := some ug.name, handle := some ug.handle,
            description := some ug.description, channels := some ug.channels,
            users := some ug.users }, [.getUserGroups])
      | none =>
        let identifier := if hasName then config.name.valueString else config.id.valueString
        let identifierType := if hasName then "name" else "ID"
        (.error ("could not find usergroup with " ++ identifierType ++ ": " ++ identifier),
          [.getUserGroups])

/-! ### Concrete fixtures used by witnesses and counterexamples -/

/-- A concrete remote channel record: creator `U1`. -/
def exChannel : Channel :=
  { id := "C001", name := "eng", creator := "U1", created := 0,
    isPrivate := true, isGeneral := false, isShared := false,
    isExtShared := false, isOrgShared := false, isArchived := false,
    topic := "remote-topic", purpose := "remote-purpose" }

/-- A concrete remote usergroup record. -/
def exGroup : UserGroup :=
  { id := "S001", name := "team", handle := "team", description := "d",
    channels := [], users := ["U7"] }

/-- A concrete workspace user directory with a duplicated display name. -/
def exUsers : List SlackUser :=
  [{ id := "U1", name := "alice", email := "a@x" },
   { id := "U2", name := "alice", email := "b@x" },
   { id := "U3", name := "bob", email := "c@x" }]

/-- A remote on which every call succeeds. -/
def exRemote : Remote :=
  { createConversation := fun _ _ => .ok exChannel
    setTopic := fun _ _ => .ok ()
    setPurpose := fun _ _ => .ok ()
    inviteUser := fun _ _ => .ok ()
    kickUser := fun _ _ => .ok ()
    renameConversation := fun _ _ => .ok ()
    archiveConversation := fun _ => .ok ()
    unarchiveConversation := fun _ => .ok ()
    getConversationInfo := fun _ => .ok exChannel
    getUsersInConversation := fun _ => .ok []
    createUserGroup := fun _ => .ok exGroup
    updateUserGroup := fun _ => .ok ()
    updateUserGroupMembers := fun _ _ => .ok ()
    getUserGroups := .ok [exGroup]
    disableUserGroup := fun _ => .ok ()
    getUsers := .ok exUsers }

/-- The usergroup record `UsergroupResource.Create` sends for
`exUGPlanEmptyUsers`. -/
def exReqC4 : UserGroup :=
  { id := "", name := "team", handle := "", description := "",
    channels := [], users := [] }

/-- The all-null conversation model. -/
def emptyConvModel : ConversationResourceModel :=
  { id := none, name := none, topic := none, purpose := none,
    permanentMembers := none, created := none, creator := none,
    isPrivate := none, isArchived := none, isShared := none,
    isExtShared := none, isOrgShared := none, isGeneral := none,
    actionOnDestroy := none, actionOnUpdatePermanentMembers := none,
    adoptExistingChannel := none }

/-- The all-null usergroup model. -/
def emptyUGModel : UsergroupResourceModel :=
  { id := none, name := none, handle := none, description := none,
    channels := none, users := none }

/-- Create plan whose permanent members contain the creator `U1`. -/
def exPlanC1 : ConversationResourceModel :=
  { emptyConvModel with
    name := some "eng", isPrivate := some true,
    permanentMembers := some ["U1", "U2"] }

/-- Create plan exercising topic, purpose and member mutations. -/
def exPlanC5 : ConversationResourceModel :=
  { emptyConvModel with
    name := some "eng", isPrivate := some true, topic := some "t",
    purpose := some "p", permanentMembers := some ["U2"] }

/-- Create plan opting into channel adoption. -/
def exPlanAdopt : ConversationResourceModel :=
  { emptyConvModel with
    name := some "adopted-channel", isPrivate := some false,
    adoptExistingChannel := some true }

/-- A remote whose channel-create call reports the name as taken. -/
def exRemoteNameTaken : Remote :=
  { exRemote with createConversation := fun _ _ => .error "name_taken" }

/-- A remote whose usergroup-disable call reports the group as already
disabled. -/
def exRemoteAlreadyDisabled : Remote :=
  { exRemote with disableUserGroup := fun _ => .error "already_disabled" }

/-- A remote whose channel-archive call reports the channel as already
archived. -/
def exRemoteAlreadyArchived : Remote :=
  { exRemote with archiveConversation := fun _ => .error "already_archived" }

/-- Usergroup state tracking the remote group `S001`. -/
def exUGState : UsergroupResourceModel :=
  { emptyUGModel with id := some "S001", name := some "team", users := some ["U7"] }

/-- Usergroup create plan with an explicitly empty member set. -/
def exUGPlanEmptyUsers : UsergroupResourceModel :=
  { emptyUGModel with name := some "team", users := some [] }

/-- Usergroup update plan replacing the members with the empty set. -/
def exUGPlanC4 : UsergroupResourceModel :=
  { emptyUGModel with id := some "S001", name := some "team", users := some [] }

/-- Conversation update plan for the membership-diff witness. -/
def exPlanUpd : ConversationResourceModel :=
  { emptyConvModel with
    id := some "C001", permanentMembers := some ["U2", "U3"],
    actionOnUpdatePermanentMembers := some "kick" }

/-- Conversation prior state for the membership-diff witness. -/
def exStateUpd : ConversationResourceModel :=
  { emptyConvModel with
    id := some "C001", permanentMembers := some ["U1", "U2"],
    actionOnUpdatePermanentMembers := some "kick" }

/-- Conversation state with destroy policy `none`. -/
def exStateDestroyNone : ConversationResourceModel :=
  { emptyConvModel with id := some "C001", actionOnDestroy := some "none" }

/-- Conversation state with destroy policy `archive`. -/
def exStateDestroyArchive : ConversationResourceModel :=
  { emptyConvModel with id := some "C001", actionOnDestroy := some "archive" }

/-- The model `ConversationResource.Create` writes back for `exPlanC1`
against `exRemote`. -/
def exPlanC1Result : ConversationResourceModel :=
  { exPlanC1 with
    id := some "C001", name := some "eng", creator := some "U1",
    created := some 0, isPrivate := some true, isGeneral := some false,
    isShared := some false, isExtShared := some false,
    isOrgShared := some false, isArchived := some false }

/-- The model `ConversationResource.Create` writes back for `exPlanC5`
against `exRemote`. -/
def exResultC5 : ConversationResourceModel :=
  { exPlanC5 with
    id := some "C001", name := some "eng", creator := some "U1",
    created := some 0, isPrivate := some true, isGeneral := some false,
    isShared := some false, isExtShared := some false,
    isOrgShared := some false, isArchived := some false }

/-- Usergroup data-source query for the absent group `S999`. -/
def exDSConfig : UsergroupDataSourceModel :=
  { id := some "S999", usergroupID := none, name := none, handle := none,
    description := none, users := none, channels := none }

/-- Usergroup data-source query by name for the absent group
`missing-team`. -/
def exDSConfigByName : UsergroupDataSourceModel :=
  { id := none, usergroupID := none, name := some "missing-team", handle := none,
    description := none, users := none, channels := none }

/-- Usergroup resource state tracking the absent group `S999`. -/
def exUGStateMissing : UsergroupResourceModel :=
  { emptyUGModel with id := some "S999" }

/-! ### Basic lemmas about the embedded helpers -/

theorem contains_eq_true_iff (s : List String) (e : String) :
    contains s e = true ↔ e ∈ s := by
  induction s with
  | nil => simp [contains]
  | cons x rest ih =>
    by_cases h : x = e
    · subst h; simp [contains]
    · have hb : (x == e) = false := by simpa using h
      simp [contains, hb, ih, List.mem_cons]
      intro he; exact absurd he.symm h

theorem contains_eq_false_iff (s : List String) (e : String) :
    contains s e = false ↔ e ∉ s := by
  rw [← contains_eq_true_iff]
  cases contains s e <;> simp

theorem mem_differ_fst (D O : List String) (u : String) :
    u ∈ (differ D O).1 ↔ u ∈ D ∧ u ∉ O := by
  simp [differ, List.mem_filter, contains_eq_false_iff]

theorem mem_differ_snd (D O : List String) (u : String) :
    u ∈ (differ D O).2 ↔ u ∈ O ∧ u ∉ D := by
  simp [differ, List.mem_filter, contains_eq_false_iff]

theorem pseq_ok_nil (b : Except String Unit × List ApiCall) :
    pseq (.ok (), []) b = b := by
  cases b with
  | mk r tr => simp [pseq]

theorem invitedUsers_append (a b : List ApiCall) :
    invitedUsers (a ++ b) = invitedUsers a ++ invitedUsers b := by
  simp [invitedUsers]

theorem kickedUsers_append (a b : List ApiCall) :
    kickedUsers (a ++ b) = kickedUsers a ++ kickedUsers b := by
  simp [kickedUsers]

theorem invitedUsers_map_invite (ch : String) (l : List String) :
    invitedUsers (l.map (ApiCall.inviteUser ch)) = l := by
  induction l with
  | nil => rfl
  | cons u rest ih => simpa [invitedUsers] using ih

theorem kickedUsers_map_kick (ch : String) (l : List String) :
    kickedUsers (l.map (ApiCall.kickUser ch)) = l := by
  induction l with
  | nil => rfl
  | cons u rest ih => simpa [kickedUsers] using ih

theorem invitedUsers_map_kick (ch : String) (l : List String) :
    invitedUsers (l.map (ApiCall.kickUser ch)) = [] := by
  induction l with
  | nil => rfl
  | cons u rest ih => simp [invitedUsers]

theorem kickedUsers_map_invite (ch : String) (l : List String) :
    kickedUsers (l.map (ApiCall.inviteUser ch)) = [] := by
  induction l with
  | nil => rfl
  | cons u rest ih => simp [kickedUsers]

theorem invitedUsers_nil : invitedUsers [] = [] := rfl

theorem invitedUsers_cons_create (n : String) (p : Bool) (tr : List ApiCall) :
    invitedUsers (ApiCall.createConversation n p :: tr) = invitedUsers tr := rfl

theorem invitedUsers_cons_setTopic (i t : String) (tr : List ApiCall) :
    invitedUsers (ApiCall.setTopic i t :: tr) = invitedUsers tr := rfl

theorem invitedUsers_cons_setPurpose (i t : String) (tr : List ApiCall) :
    invitedUsers (ApiCall.setPurpose i t :: tr) = invitedUsers tr := rfl

theorem invitedUsers_info (i : String) :
    invitedUsers [ApiCall.getConversationInfo i] = [] := rfl

theorem invitedUsers_info_users (i j : String) :
    invitedUsers [ApiCall.getConversationInfo i, ApiCall.getUsersInConversation j] = [] := rfl

theorem kickedUsers_info (i : String) :
    kickedUsers [ApiCall.getConversationInfo i] = [] := rfl

theorem kickedUsers_info_users (i j : String) :
    kickedUsers [ApiCall.getConversationInfo i, ApiCall.getUsersInConversation j] = [] := rfl

theorem memberReplaceCalls_append (a b : List ApiCall) :
    memberReplaceCalls (a ++ b) = memberReplaceCalls a ++ memberReplaceCalls b := by
  simp [memberReplaceCalls]

theorem ugUpdateFieldsStep_no_members (remote : Remote) (plan st : UsergroupResourceModel) :
    memberReplaceCalls (ugUpdateFieldsStep remote plan st).2 = [] := by
  by_cases h : plan.name ≠ st.name ∨ plan.handle ≠ st.handle ∨
      plan.description ≠ st.description ∨ plan.channels ≠ st.channels
  · cases hr : remote.updateUserGroup plan.id.valueString with
    | error e => simp [ugUpdateFieldsStep, h, hr, memberReplaceCalls]
    | ok u => simp [ugUpdateFieldsStep, h, hr, memberReplaceCalls]
  · simp [ugUpdateFieldsStep, h, memberReplaceCalls]

theorem inviteLoop_ok (remote : Remote) (chID : String) (l : List String)
    (h : ∀ u ∈ l, remote.inviteUser chID u = .ok ()) :
    inviteLoop remote chID l = (.ok (), l.map (ApiCall.inviteUser chID)) := by
  induction l with
  | nil => rfl
  | cons u rest ih =>
    have hu := h u (List.mem_cons_self u rest)
    have ih2 := ih (fun v hv => h v (List.mem_cons_of_mem u hv))
    simp [inviteLoop, hu, ih2]

theorem inviteAbsentLoop_ok (remote : Remote) (chID : String) (old l : List String)
    (h : ∀ u ∈ l, remote.inviteUser chID u = .ok ()) :
    inviteAbsentLoop remote chID old l =
      (.ok (), (l.filter (fun u => !contains old u)).map (ApiCall.inviteUser chID)) := by
  induction l with
  | nil => rfl
  | cons u rest ih =>
    have hu := h u (List.mem_cons_self u rest)
    have ih2 := ih (fun v hv => h v (List.mem_cons_of_mem u hv))
    cases hc : contains old u with
    | true => simp [inviteAbsentLoop, hc, ih2, List.filter_cons]
    | false => simp [inviteAbsentLoop, hc, hu, ih2, List.filter_cons]

theorem kickAbsentLoop_ok (remote : Remote) (chID : String) (new l : List String)
    (h : ∀ u ∈ l, remote.kickUser chID u = .ok ()) :
    kickAbsentLoop remote chID new l =
      (.ok (), (l.filter (fun u => !contains new u)).map (ApiCall.kickUser chID)) := by
  induction l with
  | nil => rfl
  | cons u rest ih =>
    have hu := h u (List.mem_cons_self u rest)
    have ih2 := ih (fun v hv => h v (List.mem_cons_of_mem u hv))
    cases hc : contains new u with
    | true => simp [kickAbsentLoop, hc, ih2, List.filter_cons]
    | false => simp [kickAbsentLoop, hc, hu, ih2, List.filter_cons]

theorem pseq_all (p : ApiCall → Bool) (a b : Except String Unit × List ApiCall)
    (ha : a.2.all p = true) (hb : b.2.all p = true) : (pseq a b).2.all p = true := by
  rcases a with ⟨ra, tra⟩
  cases ra with
  | error e => simpa [pseq] using ha
  | ok u => simp only [pseq, List.all_append, Bool.and_eq_true]; exact ⟨ha, hb⟩

theorem inviteLoop_no_reads (remote : Remote) (chID : String) (l : List String) :
    ((inviteLoop remote chID l).2.all (fun c => !isRead c)) = true := by
  induction l with
  | nil => rfl
  | cons u rest ih =>
    cases hr : remote.inviteUser chID u with
    | error e => simp [inviteLoop, hr, isRead]
    | ok a =>
      cases hl : inviteLoop remote chID rest with
      | mk res tr =>
        rw [hl] at ih
        simpa [inviteLoop, hr, hl, isRead] using ih

theorem createTopicStep_no_reads (remote : Remote) (chID : String)
    (plan : ConversationResourceModel) :
    ((createTopicStep remote chID plan).2.all (fun c => !isRead c)) = true := by
  by_cases h : plan.topic ≠ none ∧ plan.topic.valueString ≠ ""
  · cases hr : remote.setTopic chID plan.topic.valueString with
    | error e => simp [createTopicStep, h, hr, isRead]
    | ok u => simp [createTopicStep, h, hr, isRead]
  · simp [createTopicStep, h]

theorem createPurposeStep_no_reads (remote : Remote) (chID : String)
    (plan : ConversationResourceModel) :
    ((createPurposeStep remote chID plan).2.all (fun c => !isRead c)) = true := by
  by_cases h : plan.purpose ≠ none ∧ plan.purpose.valueString ≠ ""
  · cases hr : remote.setPurpose chID plan.purpose.valueString with
    | error e => simp [createPurposeStep, h, hr, isRead]
    | ok u => simp [createPurposeStep, h, hr, isRead]
  · simp [createPurposeStep, h]

theorem createInviteStep_no_reads (remote : Remote) (chID : String)
    (plan : ConversationResourceModel) :
    ((createInviteStep remote chID plan).2.all (fun c => !isRead c)) = true := by
  by_cases h : plan.permanentMembers ≠ none ∧ plan.permanentMembers.elems.length > 0
  · simpa [createInviteStep, h] using
      inviteLoop_no_reads remote chID plan.permanentMembers.elems
  · simp [createInviteStep, h]

/-! ### Claim theorems -/

/-- C2: the membership diff computed during channel Update invites exactly
the members of `D − O` and kicks exactly the members of `O − D` (under the
default `kick` removal policy); `differ D D` yields no additions and no
removals, `differ D []` adds exactly `D`; the computation is a pure function
of the two element sets, so it is deterministic and order-independent at the
set level. -/
theorem C2_membership_differ (D O : List String) :
    ((differ D O).1.toFinset = D.toFinset \ O.toFinset ∧
     (differ D O).2.toFinset = O.toFinset \ D.toFinset) ∧
    differ D D = ([], []) ∧
    differ D [] = (D, []) ∧
    (∀ (remote : Remote) (plan st : ConversationResourceModel),
      plan.permanentMembers = some D → st.permanentMembers = some O →
      plan.permanentMembers ≠ st.permanentMembers →
      plan.name = st.name → plan.topic = st.topic → plan.purpose = st.purpose →
      plan.isArchived = st.isArchived →
      plan.actionOnUpdatePermanentMembers.valueString = "kick" →
      (∀ u, remote.inviteUser plan.id.valueString u = Except.ok ()) →
      (∀ u, remote.kickUser plan.id.valueString u = Except.ok ()) →
      invitedUsers (conversationUpdate remote plan st).2 = (differ D O).1 ∧
      kickedUsers (conversationUpdate remote plan st).2 = (differ D O).2) := by
  refine ⟨⟨?_, ?_⟩, ?_, ?_, ?_⟩
  · ext u; simp [mem_differ_fst]
  · ext u; simp [mem_differ_snd]
  · have h1 : D.filter (fun u => !contains D u) = [] := by
      rw [List.filter_eq_nil_iff]
      intro u hu
      simp [contains_eq_true_iff, hu]
    simp [differ, h1]
  · simp [differ, contains]
  · intro remote plan st hpm hspm hne hname htopic hpurpose harch haction hinv hkick
    have hDO : D ≠ O := by
      rw [hpm, hspm] at hne
      simpa using hne
    have e1 : renameStep remote plan.id.valueString plan st = (.ok (), []) := by
      simp [renameStep, hname]
    have e2 : topicStep remote plan.id.valueString plan st = (.ok (), []) := by
      simp [topicStep, htopic]
    have e3 : purposeStep remote plan.id.valueString plan st = (.ok (), []) := by
      simp [purposeStep, hpurpose]
    have e4 : archiveStep remote plan.id.valueString plan st = (.ok (), []) := by
      simp [archiveStep, harch]
    have einv : inviteAbsentLoop remote plan.id.valueString O D =
        (.ok (), (D.filter (fun u => !contains O u)).map
          (ApiCall.inviteUser plan.id.valueString)) :=
      inviteAbsentLoop_ok _ _ _ _ (fun u _ => hinv u)
    have ekick : kickAbsentLoop remote plan.id.valueString D O =
        (.ok (), (O.filter (fun u => !contains D u)).map
          (ApiCall.kickUser plan.id.valueString)) :=
      kickAbsentLoop_ok _ _ _ _ (fun u _ => hkick u)
    have e5 : membersStep remote plan.id.valueString plan st =
        (.ok (), (D.filter (fun u => !contains O u)).map
            (ApiCall.inviteUser plan.id.valueString)
          ++ (O.filter (fun u => !contains D u)).map
            (ApiCall.kickUser plan.id.valueString)) := by
      simp [membersStep, hpm, hspm, hDO, Option.elems, haction, einv, ekick, pseq]
    have finish : ∀ rest : List ApiCall, invitedUsers rest = [] → kickedUsers rest = [] →
        invitedUsers (((D.filter (fun u => !contains O u)).map
            (ApiCall.inviteUser plan.id.valueString)
          ++ (O.filter (fun u => !contains D u)).map
            (ApiCall.kickUser plan.id.valueString)) ++ rest) = (differ D O).1 ∧
        kickedUsers (((D.filter (fun u => !contains O u)).map
            (ApiCall.inviteUser plan.id.valueString)
          ++ (O.filter (fun u => !contains D u)).map
            (ApiCall.kickUser plan.id.valueString)) ++ rest) = (differ D O).2 := by
      intro rest hInv hKick
      rw [invitedUsers_append, invitedUsers_append, kickedUsers_append, kickedUsers_append,
        invitedUsers_map_invite, invitedUsers_map_kick, kickedUsers_map_invite,
        kickedUsers_map_kick, hInv, hKick]
      simp [differ]
    cases hg : remote.getConversationInfo plan.id.valueString with
    | error e =>
      have htr : (conversationUpdate remote plan st).2 =
          ((D.filter (fun u => !contains O u)).map (ApiCall.inviteUser plan.id.valueString)
            ++ (O.filter (fun u => !contains D u)).map (ApiCall.kickUser plan.id.valueString))
          ++ [ApiCall.getConversationInfo plan.id.valueString] := by
        simp [conversationUpdate, e1, e2, e3, e4, e5, pseq, hg]
      rw [htr]
      exact finish _ (invitedUsers_info _) (kickedUsers_info _)
    | ok ch =>
      cases hgu : remote.getUsersInConversation plan.id.valueString with
      | error e =>
        have htr : (conversationUpdate remote plan st).2 =
            ((D.filter (fun u => !contains O u)).map (ApiCall.inviteUser plan.id.valueString)
              ++ (O.filter (fun u => !contains D u)).map (ApiCall.kickUser plan.id.valueString))
            ++ [ApiCall.getConversationInfo plan.id.valueString,
                ApiCall.getUsersInConversation plan.id.valueString] := by
          simp [conversationUpdate, e1, e2, e3, e4, e5, pseq, hg, hgu, hpm]
        rw [htr]
        exact finish _ (invitedUsers_info_users _ _) (kickedUsers_info_users _ _)
      | ok mems =>
        have htr : (conversationUpdate remote plan st).2 =
            ((D.filter (fun u => !contains O u)).map (ApiCall.inviteUser plan.id.valueString)
              ++ (O.filter (fun u => !contains D u)).map (ApiCall.kickUser plan.id.valueString))
            ++ [ApiCall.getConversationInfo plan.id.valueString,
                ApiCall.getUsersInConversation plan.id.valueString] := by
          simp [conversationUpdate, e1, e2, e3, e4, e5, pseq, hg, hgu, hpm]
        rw [htr]
        exact finish _ (invitedUsers_info_users _ _) (kickedUsers_info_users _ _)

/-- C2 witness: at `D = [U2, U3]`, `O = [U1, U2]` the channel Update issues
exactly one invite (`U3`) and one kick (`U1`). -/
theorem C2_membership_differ_witness :
    invitedUsers (conversationUpdate exRemote exPlanUpd exStateUpd).2 = ["U3"] ∧
    kickedUsers (conversationUpdate exRemote exPlanUpd exStateUpd).2 = ["U1"] := by
  have h := (C2_membership_differ ["U2", "U3"] ["U1", "U2"]).2.2.2 exRemote
    exPlanUpd exStateUpd rfl rfl (by decide) rfl rfl rfl rfl rfl
    (fun _ => rfl) (fun _ => rfl)
  exact ⟨h.1.trans (by decide), h.2.trans (by decide)⟩

/-- C3: a channel Update and a usergroup Update whose plan equals the prior
state on every field issue only read calls: no rename, topic, purpose,
archive, unarchive, invite, kick, usergroup-update or member-replacement
call appears in the trace. -/
theorem C3_update_idempotent :
    (∀ (remote : Remote) (s : ConversationResourceModel),
      ((conversationUpdate remote s s).2.all (fun c => isRead c)) = true) ∧
    (∀ (remote : Remote) (s : UsergroupResourceModel),
      ((usergroupUpdate remote s s).2.all (fun c => isRead c)) = true) := by
  constructor
  · intro remote s
    have e1 : renameStep remote s.id.valueString s s = (.ok (), []) := by
      simp [renameStep]
    have e2 : topicStep remote s.id.valueString s s = (.ok (), []) := by
      simp [topicStep]
    have e3 : purposeStep remote s.id.valueString s s = (.ok (), []) := by
      simp [purposeStep]
    have e4 : archiveStep remote s.id.valueString s s = (.ok (), []) := by
      simp [archiveStep]
    have e5 : membersStep remote s.id.valueString s s = (.ok (), []) := by
      simp [membersStep]
    cases hg : remote.getConversationInfo s.id.valueString with
    | error e => simp [conversationUpdate, e1, e2, e3, e4, e5, pseq, hg, isRead]
    | ok ch =>
      by_cases hpm : s.permanentMembers = none
      · simp [conversationUpdate, e1, e2, e3, e4, e5, pseq, hg, hpm, isRead]
      · cases hgu : remote.getUsersInConversation s.id.valueString with
        | error e =>
          simp [conversationUpdate, e1, e2, e3, e4, e5, pseq, hg, hgu, hpm, isRead]
        | ok mems =>
          simp [conversationUpdate, e1, e2, e3, e4, e5, pseq, hg, hgu, hpm, isRead]
  · intro remote s
    have f1 : ugUpdateFieldsStep remote s s = (.ok (), []) := by
      simp [ugUpdateFieldsStep]
    have f2 : ugUpdateMemberStep remote s s = (.ok (), []) := by
      simp [ugUpdateMemberStep]
    cases hg : remote.getUserGroups with
    | error e => simp [usergroupUpdate, f1, f2, hg, isRead]
    | ok groups =>
      cases hf : groups.find? (fun ug => ug.id == s.id.valueString) with
      | none => simp [usergroupUpdate, f1, f2, hg, hf, isRead]
      | some ug => simp [usergroupUpdate, f1, f2, hg, hf, isRead]

/-- C7: channel Delete under destroy policy `none` issues zero remote
calls; under policy `archive` it issues exactly one archive call and treats
the remote errors `already_archived` and `channel_not_found` as success. -/
theorem C7_destroy_policy :
    (∀ (remote : Remote) (st : ConversationResourceModel),
      st.actionOnDestroy = some "none" → (conversationDelete remote st).2 = []) ∧
    (∀ (remote : Remote) (st : ConversationResourceModel),
      st.actionOnDestroy = some "archive" →
        (conversationDelete remote st).2 =
          [ApiCall.archiveConversation st.id.valueString] ∧
        ((remote.archiveConversation st.id.valueString = .ok () ∨
          remote.archiveConversation st.id.valueString = .error errAlreadyArchived ∨
          remote.archiveConversation st.id.valueString = .error errChannelNotFound) →
          (conversationDelete remote st).1 = .ok ())) := by
  constructor
  · intro remote st h
    have hv : Option.valueString (some "none") = "none" := rfl
    simp [conversationDelete, h, hv]
  · intro remote st h
    have hv : Option.valueString (some "archive") = "archive" := rfl
    constructor
    · cases hg : remote.archiveConversation st.id.valueString with
      | ok u => simp [conversationDelete, h, hv, hg]
      | error e =>
        by_cases he : e ≠ errAlreadyArchived ∧ e ≠ errChannelNotFound <;>
          simp [conversationDelete, h, hv, hg, he]
    · intro hres
      rcases hres with hg | hg | hg <;>
        simp [conversationDelete, h, hv, hg, errAlreadyArchived, errChannelNotFound]

/-- C7 witness: with policy `none` the Delete trace is empty; with policy
`archive` against an already-archived channel, one archive call is issued
and the Delete succeeds. -/
theorem C7_destroy_policy_witness :
    (conversationDelete exRemote exStateDestroyNone).2 = [] ∧
    (conversationDelete exRemoteAlreadyArchived exStateDestroyArchive).2 =
      [ApiCall.archiveConversation "C001"] ∧
    (conversationDelete exRemoteAlreadyArchived exStateDestroyArchive).1 = .ok () := by
  refine ⟨C7_destroy_policy.1 exRemote exStateDestroyNone rfl, ?_, ?_⟩
  · exact (C7_destroy_policy.2 exRemoteAlreadyArchived exStateDestroyArchive rfl).1
  · exact (C7_destroy_policy.2 exRemoteAlreadyArchived exStateDestroyArchive rfl).2
      (Or.inr (Or.inl rfl))

/-- C1 counterexample: for the create plan whose permanent members are
`[U1, U2]` and whose created channel reports creator `U1`, the invite call
IS issued for the creator's ID `U1`, refuting "the invite call is never
issued for the creator's ID". -/
theorem C1_claim_counterexample :
    (conversationCreate exRemote exPlanC1).2 =
      [ApiCall.createConversation "eng" true, ApiCall.inviteUser "C001" "U1",
       ApiCall.inviteUser "C001" "U2"] ∧
    (conversationCreate exRemote exPlanC1).1 = Except.ok exPlanC1Result ∧
    exPlanC1Result.creator = some "U1" :=
  ⟨rfl, rfl, rfl⟩

/-- C1 (amended): channel Create issues an invite call for every element of
the `permanent_members` set, in order, with no creator exclusion — the
creator's ID is invited too when present in the set. -/
theorem C1_create_invites_every_member (remote : Remote)
    (plan : ConversationResourceModel) (ch : Channel) (l : List String)
    (hcr : remote.createConversation plan.name.valueString plan.isPrivate.valueBool =
      Except.ok ch)
    (hst : ∀ t, remote.setTopic ch.id t = Except.ok ())
    (hsp : ∀ t, remote.setPurpose ch.id t = Except.ok ())
    (hinv : ∀ u, remote.inviteUser ch.id u = Except.ok ())
    (hpm : plan.permanentMembers = some l) :
    invitedUsers (conversationCreate remote plan).2 = l := by
  have htop : createTopicStep remote ch.id plan = (.ok (),
      if plan.topic ≠ none ∧ plan.topic.valueString ≠ "" then
        [ApiCall.setTopic ch.id plan.topic.valueString] else []) := by
    by_cases h : plan.topic ≠ none ∧ plan.topic.valueString ≠ "" <;>
      simp [createTopicStep, h, hst]
  have hpur : createPurposeStep remote ch.id plan = (.ok (),
      if plan.purpose ≠ none ∧ plan.purpose.valueString ≠ "" then
        [ApiCall.setPurpose ch.id plan.purpose.valueString] else []) := by
    by_cases h : plan.purpose ≠ none ∧ plan.purpose.valueString ≠ "" <;>
      simp [createPurposeStep, h, hsp]
  have hinvstep : createInviteStep remote ch.id plan =
      (.ok (), l.map (ApiCall.inviteUser ch.id)) := by
    rcases l with _ | ⟨v, rest⟩
    · simp [createInviteStep, hpm, Option.elems]
    · have e := inviteLoop_ok remote ch.id (v :: rest) (fun u _ => hinv u)
      simp [createInviteStep, hpm, Option.elems, e]
  have hmain : (conversationCreate remote plan).2 =
      ApiCall.createConversation plan.name.valueString plan.isPrivate.valueBool ::
        ((if plan.topic ≠ none ∧ plan.topic.valueString ≠ "" then
            [ApiCall.setTopic ch.id plan.topic.valueString] else []) ++
         ((if plan.purpose ≠ none ∧ plan.purpose.valueString ≠ "" then
            [ApiCall.setPurpose ch.id plan.purpose.valueString] else []) ++
          l.map (ApiCall.inviteUser ch.id))) := by
    simp [conversationCreate, hcr, htop, hpur, hinvstep, pseq]
  rw [hmain]
  by_cases h1 : plan.topic ≠ none ∧ plan.topic.valueString ≠ "" <;>
  by_cases h2 : plan.purpose ≠ none ∧ plan.purpose.valueString ≠ "" <;>
    simp [h1, h2, invitedUsers_cons_create, invitedUsers_cons_setTopic,
      invitedUsers_cons_setPurpose, invitedUsers_append, invitedUsers_map_invite,
      invitedUsers_nil]

/-- C1 (amended) witness: with permanent members `[U1, U2]` and creator
`U1`, both `U1` and `U2` are invited. -/
theorem C1_create_invites_every_member_witness :
    invitedUsers (conversationCreate exRemote exPlanC1).2 = ["U1", "U2"] :=
  C1_create_invites_every_member exRemote exPlanC1 exChannel ["U1", "U2"]
    rfl (fun _ => rfl) (fun _ => rfl) (fun _ => rfl) rfl

/-- C5 counterexample: a fully successful channel Create (topic, purpose
and one member configured) whose trace contains no read call at all —
refuting "returns the fully observed record by issuing a fresh read of the
channel after all mutation calls complete". -/
theorem C5_claim_counterexample :
    (conversationCreate exRemote exPlanC5).1 = Except.ok exResultC5 ∧
    (conversationCreate exRemote exPlanC5).2 =
      [ApiCall.createConversation "eng" true, ApiCall.setTopic "C001" "t",
       ApiCall.setPurpose "C001" "p", ApiCall.inviteUser "C001" "U2"] ∧
    exResultC5.topic = some "t" ∧ exChannel.topic = "remote-topic" :=
  ⟨rfl, rfl, rfl, rfl⟩

/-- C5 (amended): channel Create issues no read call whatsoever (every call
in its trace is a mutation), and the record it writes back keeps the plan's
local topic and purpose values rather than remotely observed ones. -/
theorem C5_create_no_terminal_read (remote : Remote) (plan : ConversationResourceModel) :
    ((conversationCreate remote plan).2.all (fun c => !isRead c)) = true ∧
    (∀ m, (conversationCreate remote plan).1 = Except.ok m →
      m.topic = plan.topic ∧ m.purpose = plan.purpose) := by
  cases hcr : remote.createConversation plan.name.valueString plan.isPrivate.valueBool with
  | error e =>
    constructor
    · simp [conversationCreate, hcr, isRead]
    · intro m hm
      simp [conversationCreate, hcr] at hm
  | ok ch =>
    have h1 := createTopicStep_no_reads remote ch.id plan
    have h2 := createPurposeStep_no_reads remote ch.id plan
    have h3 := createInviteStep_no_reads remote ch.id plan
    have hall := pseq_all _ _ _ h1 (pseq_all _ _ _ h2 h3)
    cases hps : pseq (createTopicStep remote ch.id plan)
        (pseq (createPurposeStep remote ch.id plan) (createInviteStep remote ch.id plan)) with
    | mk r tr =>
      rw [hps] at hall
      cases r with
      | error e =>
        constructor
        · simpa [conversationCreate, hcr, hps, isRead] using hall
        · intro m hm
          simp [conversationCreate, hcr, hps] at hm
      | ok u =>
        constructor
        · simpa [conversationCreate, hcr, hps, isRead] using hall
        · intro m hm
          simp [conversationCreate, hcr, hps] at hm
          rw [← hm]
          exact ⟨rfl, rfl⟩

/-- C5 (amended) witness: the concrete successful create of `exPlanC5`
issues only mutation calls and returns the plan's topic and purpose. -/
theorem C5_create_no_terminal_read_witness :
    ((conversationCreate exRemote exPlanC5).2.all (fun c => !isRead c)) = true ∧
    (exResultC5.topic = exPlanC5.topic ∧ exResultC5.purpose = exPlanC5.purpose) :=
  ⟨(C5_create_no_terminal_read exRemote exPlanC5).1,
   (C5_create_no_terminal_read exRemote exPlanC5).2 exResultC5 rfl⟩

/-- C4 counterexample: usergroup Create whose `users` attribute is an
explicitly empty set issues NO member-replacement call (the trace holds
only the create call and the terminal read), refuting "when the desired
users attribute is an explicitly empty set, a replace-with-empty-members
call is issued" for Create. -/
theorem C4_claim_counterexample :
    exUGPlanEmptyUsers.users = some [] ∧
    memberReplaceCalls (usergroupCreate exRemote exUGPlanEmptyUsers).2 = [] ∧
    (usergroupCreate exRemote exUGPlanEmptyUsers).2 =
      [ApiCall.createUserGroup exReqC4, ApiCall.getUserGroups] :=
  ⟨rfl, rfl, rfl⟩

/-- C4 (amended): an unset `users` attribute skips the member-replacement
call in both Create and Update; an explicitly empty set also skips it in
Create, while in Update an explicitly empty set that differs from the prior
state issues a replace-with-empty call — so unset and empty are observably
different in Update but produce identical call sequences in Create. -/
theorem C4_unset_vs_empty :
    (∀ (remote : Remote) (plan : UsergroupResourceModel), plan.users = none →
      memberReplaceCalls (usergroupCreate remote plan).2 = []) ∧
    (∀ (remote : Remote) (plan st : UsergroupResourceModel), plan.users = none →
      memberReplaceCalls (usergroupUpdate remote plan st).2 = []) ∧
    (∀ (remote : Remote) (plan : UsergroupResourceModel), plan.users = some [] →
      memberReplaceCalls (usergroupCreate remote plan).2 = []) ∧
    (∀ (remote : Remote) (plan st : UsergroupResourceModel),
      plan.users = some [] → st.users ≠ some [] →
      plan.name = st.name → plan.handle = st.handle →
      plan.description = st.description → plan.channels = st.channels →
      memberReplaceCalls (usergroupUpdate remote plan st).2 =
        [(plan.id.valueString, "")]) := by
  have createCase : ∀ (remote : Remote) (plan : UsergroupResourceModel),
      (∀ cid, ugCreateMemberStep remote cid plan = (.ok (), [])) →
      memberReplaceCalls (usergroupCreate remote plan).2 = [] := by
    intro remote plan hstep
    cases hcr : remote.createUserGroup
        { id := "", name := plan.name.valueString, handle := plan.handle.valueString,
          description := plan.description.valueString, channels := plan.channels.elems,
          users := [] } with
    | error e =>
      simp [usergroupCreate, hcr, memberReplaceCalls]
    | ok created =>
      have hv : Option.valueString (some created.id) = created.id := rfl
      cases hg : remote.getUserGroups with
      | error e => simp [usergroupCreate, hcr, hstep, hg, memberReplaceCalls]
      | ok groups =>
        cases hf : groups.find? (fun ug => ug.id == created.id) with
        | none =>
          simp [usergroupCreate, hcr, hstep, hg, hv, hf, memberReplaceCalls]
        | some ug =>
          simp [usergroupCreate, hcr, hstep, hg, hv, hf, memberReplaceCalls]
  refine ⟨?_, ?_, ?_, ?_⟩
  · intro remote plan hu
    exact createCase remote plan (fun cid => by simp [ugCreateMemberStep, hu])
  · intro remote plan st hu
    have hm : ugUpdateMemberStep remote plan st = (.ok (), []) := by
      simp [ugUpdateMemberStep, hu]
    have hfm := ugUpdateFieldsStep_no_members remote plan st
    cases hs : ugUpdateFieldsStep remote plan st with
    | mk r tr =>
      rw [hs] at hfm
      cases r with
      | error e => simpa [usergroupUpdate, hs] using hfm
      | ok u =>
        have hfm2 : memberReplaceCalls tr = [] := hfm
        cases hg : remote.getUserGroups with
        | error e =>
          have htr : (usergroupUpdate remote plan st).2 =
              tr ++ [] ++ [ApiCall.getUserGroups] := by
            simp [usergroupUpdate, hs, hm, hg]
          rw [htr, memberReplaceCalls_append, memberReplaceCalls_append, hfm2]
          rfl
        | ok groups =>
          cases hf : groups.find? (fun ug => ug.id == plan.id.valueString) with
          | none =>
            have htr : (usergroupUpdate remote plan st).2 =
                tr ++ [] ++ [ApiCall.getUserGroups] := by
              simp [usergroupUpdate, hs, hm, hg, hf]
            rw [htr, memberReplaceCalls_append, memberReplaceCalls_append, hfm2]
            rfl
          | some ug =>
            have htr : (usergroupUpdate remote plan st).2 =
                tr ++ [] ++ [ApiCall.getUserGroups] := by
              simp [usergroupUpdate, hs, hm, hg, hf]
            rw [htr, memberReplaceCalls_append, memberReplaceCalls_append, hfm2]
            rfl
  · intro remote plan hu
    exact createCase remote plan (fun cid => by simp [ugCreateMemberStep, hu, Option.elems])
  · intro remote plan st hu hsu hn hh hd hc
    have hf1 : ugUpdateFieldsStep remote plan st = (.ok (), []) := by
      simp [ugUpdateFieldsStep, hn, hh, hd, hc]
    have hne : (some [] : TSet) ≠ st.users := fun hx => hsu hx.symm
    have hstr : String.intercalate "," (Option.elems (some [])) = "" := rfl
    cases hr : remote.updateUserGroupMembers plan.id.valueString "" with
    | error e =>
      have hm : ugUpdateMemberStep remote plan st =
          (.error ("Unable to update usergroup members: " ++ e),
           [.updateUserGroupMembers plan.id.valueString ""]) := by
        simp [ugUpdateMemberStep, hne, hu, hstr, hr]
      simp [usergroupUpdate, hf1, hm, memberReplaceCalls]
    | ok u =>
      have hm : ugUpdateMemberStep remote plan st =
          (.ok (), [.updateUserGroupMembers plan.id.valueString ""]) := by
        simp [ugUpdateMemberStep, hne, hu, hstr, hr]
      cases hg : remote.getUserGroups with
      | error e => simp [usergroupUpdate, hf1, hm, hg, memberReplaceCalls]
      | ok groups =>
        cases hfind : groups.find? (fun ug => ug.id == plan.id.valueString) with
        | none => simp [usergroupUpdate, hf1, hm, hg, hfind, memberReplaceCalls]
        | some ug => simp [usergroupUpdate, hf1, hm, hg, hfind, memberReplaceCalls]

/-- C4 (amended) witness: unset users issue no member call on Create;
explicitly empty users issue no member call on Create but do issue a
replace-with-empty call on Update when the prior state had members. -/
theorem C4_unset_vs_empty_witness :
    memberReplaceCalls (usergroupCreate exRemote emptyUGModel).2 = [] ∧
    memberReplaceCalls (usergroupCreate exRemote exUGPlanEmptyUsers).2 = [] ∧
    memberReplaceCalls (usergroupUpdate exRemote exUGPlanC4 exUGState).2 = [("S001", "")] := by
  refine ⟨C4_unset_vs_empty.1 exRemote emptyUGModel rfl,
    C4_unset_vs_empty.2.2.1 exRemote exUGPlanEmptyUsers rfl, ?_⟩
  exact C4_unset_vs_empty.2.2.2 exRemote exUGPlanC4 exUGState rfl (by decide)
    rfl rfl rfl rfl

/-- C6 counterexample: usergroup Delete against a remote that answers the
disable call with "already_disabled" fails with an error instead of
completing successfully, refuting "already disabled is treated as
success". -/
theorem C6_claim_counterexample :
    (usergroupDelete exRemoteAlreadyDisabled exUGState).1 =
      Except.error "Unable to disable usergroup: already_disabled" ∧
    (usergroupDelete exRemoteAlreadyDisabled exUGState).2 =
      [ApiCall.disableUserGroup "S001"] :=
  ⟨rfl, rfl⟩

/-- C6 (amended): usergroup Delete issues exactly one disable call and
propagates every error of that call — the remote "already disabled"
response included — as a failure; it completes without error only when the
disable call succeeds. -/
theorem C6_delete_error_propagation (remote : Remote) (st : UsergroupResourceModel) :
    (∀ e, remote.disableUserGroup st.id.valueString = Except.error e →
      (usergroupDelete remote st).1 =
        Except.error ("Unable to disable usergroup: " ++ e)) ∧
    (remote.disableUserGroup st.id.valueString = Except.ok () →
      (usergroupDelete remote st).1 = Except.ok ()) ∧
    (usergroupDelete remote st).2 = [ApiCall.disableUserGroup st.id.valueString] := by
  refine ⟨?_, ?_, ?_⟩
  · intro e he; simp [usergroupDelete, he]
  · intro he; simp [usergroupDelete, he]
  · cases hr : remote.disableUserGroup st.id.valueString with
    | error e => simp [usergroupDelete, hr]
    | ok u => simp [usergroupDelete, hr]

/-- C6 (amended) witness: "already_disabled" yields a failure; a successful
disable call yields success. -/
theorem C6_delete_error_propagation_witness :
    (usergroupDelete exRemoteAlreadyDisabled exUGState).1 =
      Except.error "Unable to disable usergroup: already_disabled" ∧
    (usergroupDelete exRemote exUGState).1 = Except.ok () :=
  ⟨(C6_delete_error_propagation exRemoteAlreadyDisabled exUGState).1
      "already_disabled" rfl,
   (C6_delete_error_propagation exRemote exUGState).2.1 rfl⟩

/-- C8: with `adopt_existing_channel = true` and a remote whose create call
fails with `name_taken` (a channel of the same name exists), Create aborts
with an error after the single create attempt; no lookup, join or unarchive
call is issued, so the pre-existing channel is never adopted — contradicting
the documented behaviour of `adopt_existing_channel`. -/
theorem C8_adopt_existing_not_implemented :
    exPlanAdopt.adoptExistingChannel = some true ∧
    conversationCreate exRemoteNameTaken exPlanAdopt =
      (Except.error "Unable to create conversation: name_taken",
       [ApiCall.createConversation "adopted-channel" false]) :=
  ⟨rfl, rfl⟩

/-- C9: user-by-name lookup fails with "no results found" on zero exact
matches, fails with "multiple results found" on more than one match, and
returns the user only when exactly one workspace user carries the name. -/
theorem C9_user_lookup_exact_unique (remote : Remote) (users : List SlackUser)
    (name : String) (h : remote.getUsers = Except.ok users) :
    ((users.filter (fun u => u.name == name)).length = 0 →
      searchByName remote name = Except.error ("no results found for name " ++ name)) ∧
    ((users.filter (fun u => u.name == name)).length > 1 →
      searchByName remote name =
        Except.error ("multiple results found for name " ++ name)) ∧
    (∀ u, users.filter (fun v => v.name == name) = [u] →
      searchByName remote name = Except.ok u) := by
  refine ⟨?_, ?_, ?_⟩
  · intro h0
    simp [searchByName, h, h0]
  · intro h1
    have h2 : ¬ (users.filter (fun u => u.name == name)).length < 1 := by omega
    simp [searchByName, h, h2, h1]
  · intro u hu
    simp [searchByName, h, hu]

/-- C9 witness: in a directory with two users named `alice` and one `bob`,
looking up `carol` reports no results, `alice` reports multiple results,
and `bob` returns the unique record. -/
theorem C9_user_lookup_exact_unique_witness :
    searchByName exRemote "carol" = Except.error "no results found for name carol" ∧
    searchByName exRemote "alice" = Except.error "multiple results found for name alice" ∧
    searchByName exRemote "bob" = Except.ok { id := "U3", name := "bob", email := "c@x" } :=
  ⟨(C9_user_lookup_exact_unique exRemote exUsers "carol" rfl).1 (by decide),
   (C9_user_lookup_exact_unique exRemote exUsers "alice" rfl).2.1 (by decide),
   (C9_user_lookup_exact_unique exRemote exUsers "bob" rfl).2.2 _ (by decide)⟩

/-- C10: when no remote group matches the supplied key — whether the lookup
supplied an `id` or a `name` — the usergroup data source fails with a
user-facing "Not Found" error and produces no state, while the usergroup
resource Read treats the same absence as a silent removal signal with no
error. -/
theorem C10_absence_datasource_vs_resource (remote : Remote) (groups : List UserGroup)
    (config : UsergroupDataSourceModel) (st : UsergroupResourceModel)
    (hg : remote.getUserGroups = Except.ok groups) :
    (config.id ≠ none → config.name = none →
      (∀ ug ∈ groups, ug.id ≠ config.id.valueString) →
      (usergroupDataSourceRead remote config).1 =
        Except.error ("could not find usergroup with ID: " ++ config.id.valueString)) ∧
    (config.id = none → config.name ≠ none →
      (∀ ug ∈ groups, ug.name ≠ config.name.valueString) →
      (usergroupDataSourceRead remote config).1 =
        Except.error ("could not find usergroup with name: " ++ config.name.valueString)) ∧
    ((∀ ug ∈ groups, ug.id ≠ st.id.valueString) →
      (usergroupRead remote st).1 = ReadOutcome.removed) := by
  refine ⟨?_, ?_, ?_⟩
  · intro hid hname hmiss
    have hid2 : config.id.isSome = true := Option.isSome_iff_ne_none.mpr hid
    have hfind : groups.find? (fun ug => ug.id == config.id.valueString) = none := by
      rw [List.find?_eq_none]
      intro ug hug
      simpa using hmiss ug hug
    simp [usergroupDataSourceRead, hid2, hname, hg, hfind]
  · intro hid hname hmiss
    have hname2 : config.name.isSome = true := Option.isSome_iff_ne_none.mpr hname
    have hfind : groups.find? (fun ug => ug.name == config.name.valueString) = none := by
      rw [List.find?_eq_none]
      intro ug hug
      simpa using hmiss ug hug
    simp [usergroupDataSourceRead, hid, hname2, hg, hfind]
  · intro hmiss2
    have hfind2 : groups.find? (fun ug => ug.id == st.id.valueString) = none := by
      rw [List.find?_eq_none]
      intro ug hug
      simpa using hmiss2 ug hug
    simp [usergroupRead, hg, hfind2]

/-- C10 witness: with only group `S001` (named `team`) remote, the
data-source lookup of id `S999` and the data-source lookup of name
`missing-team` both produce the "Not Found" error, while the resource Read
of `S999` produces the silent removal signal. -/
theorem C10_absence_datasource_vs_resource_witness :
    (usergroupDataSourceRead exRemote exDSConfig).1 =
      Except.error "could not find usergroup with ID: S999" ∧
    (usergroupDataSourceRead exRemote exDSConfigByName).1 =
      Except.error "could not find usergroup with name: missing-team" ∧
    (usergroupRead exRemote exUGStateMissing).1 = ReadOutcome.removed :=
  ⟨(C10_absence_datasource_vs_resource exRemote [exGroup] exDSConfig
      exUGStateMissing rfl).1 (by decide) rfl (by decide),
   (C10_absence_datasource_vs_resource exRemote [exGroup] exDSConfigByName
      exUGStateMissing rfl).2.1 rfl (by decide) (by decide),
   (C10_absence_datasource_vs_resource exRemote [exGroup] exDSConfig
      exUGStateMissing rfl).2.2 (by decide)⟩

end SlackProvider
